import Mathlib

/-!
Shallow embedding of the HR-platform repository (two Python front ends,
src/app.py and src/New4.py) for specification checking.

Conventions of the embedding:
- Python strings are Lean String values; all character-level work is done on
  the underlying character list to keep the definitions kernel-reducible.
  Word characters, lowercasing and digit tests are modelled over ASCII.
- Floating point arithmetic of numpy and scikit-learn is modelled by exact
  real arithmetic; the Python builtin round with two digits is modelled by
  round half to even on the exact value.
- The scikit-learn TfidfVectorizer pipeline (lowercase tokenization with the
  default token pattern of word runs of length at least two, removal of the
  fixed english stop word list, smooth idf over the two-document corpus,
  l2 row normalization with zero rows kept, cosine similarity) is embedded
  definition by definition below.
- External services and libraries (the OpenAI chat completion call, PyPDF2
  and python-docx parsing, base64 transport) are parameters of the model:
  the LLM gateway is a function from prompt to response text, and uploaded
  documents carry the text the extraction library produced for them.
- A Python exception escaping a helper is modelled as Option.none, and the
  Flask request handlers return Except values carrying the HTTP status code
  and error message of the JSON error branch.
-/

namespace HRPlatform

/-! ### Tokenization as performed by TfidfVectorizer

The vectorizer in similarity_score is constructed as
TfidfVectorizer(stop_words="english") in both src/app.py and src/New4.py,
so every other parameter has its scikit-learn default value: lowercasing,
token pattern of maximal word-character runs of length at least two, raw
term counts, smooth idf, and l2 normalization. -/

/-- Word character of the default token pattern: letters, digits, underscore
(ASCII fragment of the regex class). -/
def wordChar (c : Char) : Bool := c.isAlphanum || c == '_'

/-- Lowercasing preprocessing step of the vectorizer, on character lists. -/
def lowerChars (l : List Char) : List Char := l.map Char.toLower

/-- Tokens of a document: lowercase the text, take the maximal runs of word
characters, and keep only runs of length at least two, exactly as the
default token pattern of TfidfVectorizer extracts them. -/
def tokensOf (s : String) : List String :=
  (((lowerChars s.data).splitOnP (fun c => !wordChar c)).filter
    (fun r => r.length ≥ 2)).map (fun r => String.mk r)

/-- Fixed english stop word list of scikit-learn, selected by the
stop_words="english" argument of the vectorizer in similarity_score. -/
def ENGLISH_STOP_WORDS : List String :=
  ["a", "about", "above", "across", "after", "afterwards", "again", "against",
   "all", "almost", "alone", "along", "already", "also", "although", "always",
   "am", "among", "amongst", "amoungst", "amount", "an", "and", "another",
   "any", "anyhow", "anyone", "anything", "anyway", "anywhere", "are",
   "around", "as", "at", "back", "be", "became", "because", "become",
   "becomes", "becoming", "been", "before", "beforehand", "behind", "being",
   "below", "beside", "besides", "between", "beyond", "bill", "both",
   "bottom", "but", "by", "call", "can", "cannot", "cant", "co", "con",
   "could", "couldnt", "cry", "de", "describe", "detail", "do", "done",
   "down", "due", "during", "each", "eg", "eight", "either", "eleven",
   "else", "elsewhere", "empty", "enough", "etc", "even", "ever", "every",
   "everyone", "everything", "everywhere", "except", "few", "fifteen",
   "fifty", "fill", "find", "fire", "first", "five", "for", "former",
   "formerly", "forty", "found", "four", "from", "front", "full", "further",
   "get", "give", "go", "had", "has", "hasnt", "have", "he", "hence", "her",
   "here", "hereafter", "hereby", "herein", "hereupon", "hers", "herself",
   "him", "himself", "his", "how", "however", "hundred", "i", "ie", "if",
   "in", "inc", "indeed", "interest", "into", "is", "it", "its", "itself",
   "keep", "last", "latter", "latterly", "least", "less", "ltd", "made",
   "many", "may", "me", "meanwhile", "might", "mill", "mine", "more",
   "moreover", "most", "mostly", "move", "much", "must", "my", "myself",
   "name", "namely", "neither", "never", "nevertheless", "next", "nine",
   "no", "nobody", "none", "noone", "nor", "not", "nothing", "now",
   "nowhere", "of", "off", "often", "on", "once", "one", "only", "onto",
   "or", "other", "others", "otherwise", "our", "ours", "ourselves", "out",
   "over", "own", "part", "per", "perhaps", "please", "put", "rather", "re",
   "same", "see", "seem", "seemed", "seeming", "seems", "serious", "several",
   "she", "should", "show", "side", "since", "sincere", "six", "sixty",
   "so", "some", "somehow", "someone", "something", "sometime", "sometimes",
   "somewhere", "still", "such", "system", "take", "ten", "than", "that",
   "the", "their", "them", "themselves", "then", "thence", "there",
   "thereafter", "thereby", "therefore", "therein", "thereupon", "these",
   "they", "thick", "thin", "third", "this", "those", "though", "three",
   "through", "throughout", "thru", "thus", "to", "together", "too", "top",
   "toward", "towards", "twelve", "twenty", "two", "un", "under", "until",
   "up", "upon", "us", "very", "via", "was", "we", "well", "were", "what",
   "whatever", "when", "whence", "whenever", "where", "whereafter",
   "whereas", "whereby", "wherein", "whereupon", "wherever", "whether",
   "which", "while", "whither", "who", "whoever", "whole", "whom", "whose",
   "why", "will", "with", "within", "without", "would", "yet", "you",
   "your", "yours", "yourself", "yourselves"]

/-- Countable terms of a document: its tokens with stop words removed.
This is the analyzer the vectorizer applies to each of the two inputs. -/
def tfidfTokens (s : String) : List String :=
  (tokensOf s).filter (fun t => !(ENGLISH_STOP_WORDS.contains t))

/-! ### The tf-idf vector space over the two-document corpus -/

/-- Vocabulary the vectorizer fits on the two-document corpus: the set of
distinct terms of both documents together. -/
def vocab (d1 d2 : List String) : Finset String := (d1 ++ d2).toFinset

/-- Raw term frequency of a term in a document. -/
def tf (d : List String) (t : String) : ℕ := d.count t

/-- Document frequency of a term over the two-document corpus. -/
def df (d1 d2 : List String) (t : String) : ℕ :=
  (if t ∈ d1 then 1 else 0) + (if t ∈ d2 then 1 else 0)

/-- Smooth inverse document frequency with the scikit-learn defaults for a
corpus of n = 2 documents: log((1 + n) / (1 + df)) + 1. -/
noncomputable def idf (d1 d2 : List String) (t : String) : ℝ :=
  Real.log ((1 + 2) / (1 + (df d1 d2 t : ℝ))) + 1

/-- Unnormalized tf-idf weight of a term for one row of the matrix. -/
noncomputable def tfidfWeight (d1 d2 d : List String) (t : String) : ℝ :=
  (tf d t : ℝ) * idf d1 d2 t

/-- Euclidean norm of a row restricted to the fitted vocabulary. -/
noncomputable def vecNorm (S : Finset String) (u : String → ℝ) : ℝ :=
  Real.sqrt (∑ t ∈ S, u t ^ 2)

/-- Row normalization of scikit-learn: divide by the l2 norm, except that a
row of norm zero is divided by one, hence kept as the zero row. -/
noncomputable def normalizeRow (S : Finset String) (u : String → ℝ) (t : String) : ℝ :=
  u t / (if vecNorm S u = 0 then 1 else vecNorm S u)

/-- Cosine similarity of two rows as sklearn.metrics.pairwise computes it:
the dot product of the zero-safely normalized rows. -/
noncomputable def cosineSimilarity (S : Finset String) (u v : String → ℝ) : ℝ :=
  ∑ t ∈ S, normalizeRow S u t * normalizeRow S v t

/-- One row of the matrix returned by fit_transform: tf-idf weights of the
document, l2-normalized over the fitted vocabulary. -/
noncomputable def tfidfRow (d1 d2 d : List String) : String → ℝ :=
  normalizeRow (vocab d1 d2) (tfidfWeight d1 d2 d)

/-! ### Python rounding -/

/-- Round to the nearest integer, ties to even, which is how the Python
builtin round behaves on exact values. -/
noncomputable def roundHalfEven (x : ℝ) : ℤ :=
  if x - ⌊x⌋ = 1 / 2 then (if Even ⌊x⌋ then ⌊x⌋ else ⌊x⌋ + 1) else round x

/-- Python round(x, 2): round to two decimal places. -/
noncomputable def pyRound2 (x : ℝ) : ℝ := (roundHalfEven (x * 100) : ℝ) / 100

/-! ### similarity_score

Source (identical in src/app.py lines 38 to 41 and src/New4.py lines 26
to 29): fit a TfidfVectorizer with english stop words on the two texts,
take the cosine similarity of the two rows, scale by 100 and round to two
decimals. fit_transform raises a ValueError (empty vocabulary) when the two
documents together contain no countable term; the raised exception is
modelled as none. -/

/-- similarity_score of the repository, an Option-valued real: none models
the ValueError raised by fit_transform on an empty vocabulary. -/
noncomputable def similarity_score (text1 text2 : String) : Option ℝ :=
  if vocab (tfidfTokens text1) (tfidfTokens text2) = ∅ then none
  else some (pyRound2 (cosineSimilarity (vocab (tfidfTokens text1) (tfidfTokens text2))
    (tfidfRow (tfidfTokens text1) (tfidfTokens text2) (tfidfTokens text1))
    (tfidfRow (tfidfTokens text1) (tfidfTokens text2) (tfidfTokens text2)) * 100))

/-! ### Python string helpers used by the handlers -/

/-- Python str.strip on character lists: drop leading and trailing
whitespace. -/
def stripChars (l : List Char) : List Char :=
  ((l.dropWhile Char.isWhitespace).reverse.dropWhile Char.isWhitespace).reverse

/-- Python str.strip on strings. -/
def pyStrip (s : String) : String := String.mk (stripChars s.data)

/-- Python str.split("\n"): split on newline characters, keeping empty
chunks. -/
def splitLines (s : String) : List String :=
  (s.data.splitOn '\n').map (fun l => String.mk l)

/-! ### Document extraction

PyPDF2 and python-docx do the binary parsing and are external libraries;
the repository code consumes their output. read_docx joins the paragraph
texts the library reports, so it is modelled on the paragraph list. -/

/-- read_docx of src/app.py lines 34 to 36 (identically src/New4.py lines
22 to 24): join the paragraph texts of the document with newlines. The
python-docx paragraph list is the argument. -/
def read_docx (paragraphs : List String) : String :=
  String.intercalate "\n" paragraphs

/-! ### LLM gateway and prompt templates

The gateway (ask_llm) is an external chat-completion service; the model
takes it as a function from the prompt string to the response text. The
four templates reproduce the f-strings of src/app.py including their
indentation. -/

/-- CV-evaluation prompt of src/app.py lines 92 to 107. -/
def cvPrompt (cv_text jd_text : String) : String :=
  "\n            You are a hiring expert.\n\n            Evaluate the CV and Job Description match.\n            Provide:\n            1. Eligibility percentage\n            2. Matching skills\n            3. Missing skills\n            4. Final recommendation\n\n            CV:\n            " ++
  cv_text ++ "\n\n            Job Description:\n            " ++ jd_text ++ "\n            "

/-- Question-generation prompt of src/app.py lines 184 to 196. -/
def questionsPrompt (cv_text jd_text : String) : String :=
  "\n        You are a technical interviewer.\n\n        Based on the candidate CV and the Job Description, generate up to 5 technical questions.\n        Questions should increase in difficulty from low to high.\n        Return questions numbered 1 to 5 in plain text.\n\n        Candidate CV:\n        " ++
  cv_text ++ "\n\n        Job Description:\n        " ++ jd_text ++ "\n        "

/-- Answer-grading prompt of src/app.py lines 220 to 229. -/
def evalAnswerPrompt (q a : String) : String :=
  "\n            Evaluate the candidate\x27s answer to the following technical question.\n            Provide a score from 0 to 20 and a short feedback.\n\n            Question:\n            " ++
  q ++ "\n\n            Candidate Answer:\n            " ++ a ++ "\n            "

/-- Policy question prompt of src/app.py lines 254 to 263. -/
def policyPrompt (policies question : String) : String :=
  "\n        Answer ONLY using the HR policies below.\n        If info not present, say \"Policy does not specify this.\"\n\n        POLICIES:\n        " ++
  policies ++ "\n\n        QUESTION:\n        " ++ question ++ "\n        "

/-! ### Session store

The module-level dictionary sessions of src/app.py maps a session id to a
dictionary that may hold the keys policies and tech_questions. A missing
key reads as its empty default through dict.get chains in the handlers. -/

/-- One session record: accumulated policy text and generated questions. -/
structure Session where
  policies : String := ""
  tech_questions : List String := []
deriving DecidableEq

/-- The in-memory sessions dictionary. -/
def Store : Type := String → Option Session

/-- The initial empty sessions dictionary of src/app.py line 22. -/
def emptySessions : Store := fun _ => none

/-- Dictionary update sessions[k] = s. -/
def storeSet (st : Store) (k : String) (s : Session) : Store :=
  fun q => if q = k then some s else st q

/-- Flask JSON error/success result: error carries the HTTP status code and
message of the jsonify error branch. -/
abbrev Resp (α : Type) := Except (Nat × String) α

/-! ### evaluate_cvs (src/app.py lines 56 to 118)

Uploaded files arrive base64-encoded and are extracted by the external
PDF/DOCX libraries; the model takes each file with the text extraction
produced for it. The handler validates input, scores and evaluates each CV
in upload order, and sorts the collected results by score descending with
the stable Python sort. -/

/-- One uploaded CV with the text the extraction step produced for it. -/
structure CvFile where
  name : String
  text : String
deriving DecidableEq

/-- One entry of the results list built in src/app.py lines 109 to 113. -/
structure CvResult where
  name : String
  score : ℝ
  evaluation : String

/-- Processing of a single CV inside the loop of evaluate_cvs: reject blank
extractions with a 400 error, propagate the empty-vocabulary exception of
similarity_score as the 500 branch of the handler, otherwise build the
result record with the gateway evaluation. -/
noncomputable def evalCv (ask : String → String) (jd_text : String) (cv : CvFile) :
    Resp CvResult :=
  if pyStrip cv.text = "" then
    .error (400, "Could not extract text from " ++ cv.name)
  else
    match similarity_score cv.text jd_text with
    | none => .error (500, "empty vocabulary; perhaps the documents only contain stop words")
    | some s => .ok { name := cv.name, score := s, evaluation := ask (cvPrompt cv.text jd_text) }

/-- The collection loop of evaluate_cvs: process files in upload order,
aborting the whole batch on the first failure. -/
noncomputable def evalCvLoop (ask : String → String) (jd_text : String) :
    List CvFile → Resp (List CvResult)
  | [] => .ok []
  | cv :: rest =>
    match evalCv ask jd_text cv with
    | .error e => .error e
    | .ok r =>
      match evalCvLoop ask jd_text rest with
      | .error e => .error e
      | .ok rs => .ok (r :: rs)

/-- Comparison used by sorted(results, key=score, reverse=True): a stable
sort that places a before b when the score of b is at most the score of a. -/
noncomputable def scoreDescends (a b : CvResult) : Bool := decide (b.score ≤ a.score)

/-- The evaluate-cvs handler: validate, collect results in upload order,
sort by score descending with the stable Python sort. -/
noncomputable def evaluate_cvs (ask : String → String) (jd_text : String)
    (cv_files : List CvFile) : Resp (List CvResult) :=
  if cv_files = [] ∨ pyStrip jd_text = "" then
    .error (400, "Upload CVs and paste Job Description")
  else
    match evalCvLoop ask jd_text cv_files with
    | .error e => .error e
    | .ok results => .ok (results.mergeSort scoreDescends)

/-! ### upload_policies (src/app.py lines 120 to 149) -/

/-- One uploaded policy document with the text read_pdf extracted. -/
structure PolicyFile where
  name : String
  text : String
deriving DecidableEq

/-- The accumulation loop of upload_policies: starting from the empty
string, append a separator line bearing the file name and then the
extracted text, for each file in order. -/
def combined_policies (policy_files : List PolicyFile) : String :=
  policy_files.foldl (fun acc f => acc ++ ("\n--- " ++ f.name ++ " ---\n") ++ f.text) ""

/-- The upload-policies handler: build the combined text and store it under
the session id, defaulting to the string default when the request has no
session_id, creating the session record when absent and otherwise keeping
its other fields. Returns the new store and the JSON success payload
(success flag and file count). -/
def upload_policies (sessions : Store) (session_id : Option String)
    (policy_files : List PolicyFile) : Store × Resp (Bool × Nat) :=
  (storeSet sessions (session_id.getD "default")
    { (sessions (session_id.getD "default")).getD {} with
        policies := combined_policies policy_files },
   .ok (true, policy_files.length))

/-! ### generate_questions (src/app.py lines 151 to 206, src/New4.py lines
139 to 172) -/

/-- First-character test of the list comprehension in src/app.py line 198:
the stripped line starts with a decimal digit or with the letter Q. -/
def enumLike : List Char → Bool
  | [] => false
  | c :: _ => c.isDigit || c == 'Q'

/-- Question list of src/app.py line 198: split the gateway response on
newlines, strip each line, and keep the non-empty lines whose first
character is a digit or that start with Q. -/
def questions_list_app (questions_text : String) : List String :=
  (splitLines questions_text).filterMap (fun q =>
    if !(stripChars q.data).isEmpty && enumLike (stripChars q.data) then
      some (String.mk (stripChars q.data))
    else none)

/-- Question list of src/New4.py line 170: split the gateway response on
newlines, strip each line, and keep every non-empty line. -/
def questions_list_new4 (questions_text : String) : List String :=
  (splitLines questions_text).filterMap (fun q =>
    if !(stripChars q.data).isEmpty then some (String.mk (stripChars q.data)) else none)

/-- Answer initialization of src/New4.py line 172: a list of empty strings
of the same length as the question list. -/
def tech_answers_init (questions : List String) : List String :=
  List.replicate questions.length ""

/-- The generate-questions handler of src/app.py: validate the request,
reject blank extractions, ask the gateway, filter the response lines, and
store the question list under the session id (default when absent). -/
def generate_questions (ask : String → String) (sessions : Store)
    (session_id : Option String) (cv_file : Option CvFile) (jd_text : String) :
    Store × Resp (List String) :=
  match cv_file with
  | none => (sessions, .error (400, "Upload CV and paste Job Description"))
  | some cv =>
    if pyStrip jd_text = "" then
      (sessions, .error (400, "Upload CV and paste Job Description"))
    else if pyStrip cv.text = "" then
      (sessions, .error (400, "Could not extract text from " ++ cv.name))
    else
      (storeSet sessions (session_id.getD "default")
        { (sessions (session_id.getD "default")).getD {} with
            tech_questions := questions_list_app (ask (questionsPrompt cv.text jd_text)) },
       .ok (questions_list_app (ask (questionsPrompt cv.text jd_text))))

/-! ### evaluate_answers (src/app.py lines 208 to 238, src/New4.py lines
183 to 205) -/

/-- Output record of the evaluate-answers handler. -/
structure EvalAnswersOut where
  feedback : String
  total_score : String
deriving DecidableEq

/-- The feedback accumulation loop: for the i-th question/answer pair, ask
the gateway with the grading prompt and append the labelled response. -/
def feedbackLoop (ask : String → String) : List (String × String) → Nat → String
  | [], _ => ""
  | (q, a) :: rest, i =>
    "**Q" ++ toString i ++ " Evaluation:**\n" ++ ask (evalAnswerPrompt q a) ++ "\n\n" ++
    feedbackLoop ask rest (i + 1)

/-- The evaluate-answers handler of src/app.py, paired with the list of
prompts it sent to the gateway: mismatched lengths are rejected with a 400
error before any gateway call; otherwise the feedback transcript is built
pair by pair and the total score reported is the string of
question count times 20. -/
def evaluate_answers (ask : String → String) (questions answers : List String) :
    Resp EvalAnswersOut × List String :=
  if questions.length ≠ answers.length then
    (.error (400, "Questions and answers mismatch"), [])
  else
    (.ok { feedback := feedbackLoop ask (questions.zip answers) 1,
           total_score := toString (questions.length * 20) },
     (questions.zip answers).map (fun p => evalAnswerPrompt p.1 p.2))

/-- Total score of the src/New4.py grading loop: starts at zero and adds
the literal zero placeholder for every pair, independent of the gateway. -/
def new4_total_score (questions answers : List String) : Nat :=
  (questions.zip answers).foldl (fun acc _ => acc + 0) 0

/-- Score line displayed by src/New4.py line 205: the accumulated total out
of question count times 20. -/
def new4_score_line (questions : List String) (total : Nat) : String :=
  "Overall Score (approximate): " ++ toString total ++ " / " ++
  toString (questions.length * 20)

/-! ### ask_policy (src/app.py lines 240 to 267) -/

/-- The ask-policy handler: reject blank questions, read the stored policy
text of the session (default id when absent, empty when missing), reject
when it is empty, otherwise return the gateway answer to the policy
prompt. -/
def ask_policy (ask : String → String) (sessions : Store)
    (session_id : Option String) (question : String) : Resp String :=
  if pyStrip question = "" then .error (400, "Enter a question")
  else
    if ((sessions (session_id.getD "default")).map Session.policies).getD "" = "" then
      .error (400, "HR policy documents not available. Contact HR.")
    else
      .ok (ask (policyPrompt
        (((sessions (session_id.getD "default")).map Session.policies).getD "") question))

/-! ### Lemmas about the tf-idf similarity model -/

theorem mem_vocab {d1 d2 : List String} {t : String} :
    t ∈ vocab d1 d2 ↔ t ∈ d1 ∨ t ∈ d2 := by
  simp [vocab, List.mem_toFinset, List.mem_append]

theorem vocab_comm (d1 d2 : List String) : vocab d1 d2 = vocab d2 d1 := by
  ext t
  simp [mem_vocab, or_comm]

theorem vocab_eq_empty {d1 d2 : List String} :
    vocab d1 d2 = ∅ ↔ d1 = [] ∧ d2 = [] := by
  simp [vocab, List.toFinset_append, Finset.union_eq_empty, List.toFinset_eq_empty_iff]

theorem df_comm (d1 d2 : List String) (t : String) : df d1 d2 t = df d2 d1 t := by
  unfold df
  exact add_comm _ _

theorem idf_comm (d1 d2 : List String) (t : String) : idf d1 d2 t = idf d2 d1 t := by
  unfold idf
  rw [df_comm]

theorem tfidfWeight_comm (d1 d2 d : List String) :
    tfidfWeight d2 d1 d = tfidfWeight d1 d2 d := by
  funext t
  unfold tfidfWeight
  rw [idf_comm]

theorem tfidfRow_comm (d1 d2 d : List String) :
    tfidfRow d2 d1 d = tfidfRow d1 d2 d := by
  unfold tfidfRow
  rw [tfidfWeight_comm, vocab_comm]

theorem cosineSimilarity_comm (S : Finset String) (u v : String → ℝ) :
    cosineSimilarity S u v = cosineSimilarity S v u := by
  unfold cosineSimilarity
  exact Finset.sum_congr rfl fun t _ => mul_comm _ _

theorem cosineSimilarity_zero_left (S : Finset String) (u v : String → ℝ)
    (h : ∀ t, u t = 0) : cosineSimilarity S u v = 0 := by
  unfold cosineSimilarity normalizeRow
  exact Finset.sum_eq_zero fun t _ => by rw [h t, zero_div, zero_mul]

theorem cosineSimilarity_zero_right (S : Finset String) (u v : String → ℝ)
    (h : ∀ t, v t = 0) : cosineSimilarity S u v = 0 := by
  rw [cosineSimilarity_comm]
  exact cosineSimilarity_zero_left S v u h

theorem tfidfWeight_nil (d1 d2 : List String) (t : String) :
    tfidfWeight d1 d2 [] t = 0 := by
  unfold tfidfWeight tf
  simp

theorem tfidfRow_nil (d1 d2 : List String) (t : String) : tfidfRow d1 d2 [] t = 0 := by
  unfold tfidfRow normalizeRow
  rw [tfidfWeight_nil, zero_div]

/-! ### Rounding lemmas -/

theorem roundHalfEven_zero : roundHalfEven 0 = 0 := by
  unfold roundHalfEven
  norm_num

theorem pyRound2_zero : pyRound2 0 = 0 := by
  unfold pyRound2
  rw [zero_mul, roundHalfEven_zero]
  norm_num

theorem pyRound2_hundred : pyRound2 100 = 100 := by
  unfold pyRound2 roundHalfEven
  have h : (100 : ℝ) * 100 = ((10000 : ℤ) : ℝ) := by norm_num
  rw [h, Int.floor_intCast, round_intCast]
  norm_num

/-! ### Behaviour of similarity_score on degenerate inputs -/

theorem similarity_score_degenerate (a b : String)
    (h : tfidfTokens a = [] ∨ tfidfTokens b = []) :
    similarity_score a b =
      if tfidfTokens a = [] ∧ tfidfTokens b = [] then none else some 0 := by
  unfold similarity_score
  by_cases hboth : tfidfTokens a = [] ∧ tfidfTokens b = []
  · rw [if_pos (vocab_eq_empty.mpr hboth), if_pos hboth]
  · rw [if_neg (fun hv => hboth (vocab_eq_empty.mp hv)), if_neg hboth]
    have hcos : cosineSimilarity (vocab (tfidfTokens a) (tfidfTokens b))
        (tfidfRow (tfidfTokens a) (tfidfTokens b) (tfidfTokens a))
        (tfidfRow (tfidfTokens a) (tfidfTokens b) (tfidfTokens b)) = 0 := by
      rcases h with h1 | h2
      · refine cosineSimilarity_zero_left _ _ _ fun t => ?_
        rw [h1, tfidfRow_nil]
      · refine cosineSimilarity_zero_right _ _ _ fun t => ?_
        rw [h2, tfidfRow_nil]
    rw [hcos, zero_mul, pyRound2_zero]

/-! ### Self similarity -/

theorem idf_self (d : List String) (t : String) (ht : t ∈ d) : idf d d t = 1 := by
  unfold idf df
  rw [if_pos ht]
  norm_num [Real.log_one]

theorem cos_self (d : List String) (hd : d ≠ []) :
    cosineSimilarity (vocab d d) (tfidfRow d d d) (tfidfRow d d d) = 1 := by
  have hmem : ∀ t ∈ vocab d d, t ∈ d := fun t ht => (mem_vocab.mp ht).elim id id
  have hw : ∀ t ∈ vocab d d, tfidfWeight d d d t = (tf d t : ℝ) := fun t ht => by
    unfold tfidfWeight
    rw [idf_self d t (hmem t ht), mul_one]
  have hsum : ∑ t ∈ vocab d d, tfidfWeight d d d t ^ 2
      = ∑ t ∈ vocab d d, ((tf d t : ℝ)) ^ 2 :=
    Finset.sum_congr rfl fun t ht => by rw [hw t ht]
  have hpos : 0 < ∑ t ∈ vocab d d, tfidfWeight d d d t ^ 2 := by
    rw [hsum]
    obtain ⟨t0, ht0⟩ := List.exists_mem_of_ne_nil d hd
    refine Finset.sum_pos' (fun i _ => sq_nonneg _) ⟨t0, mem_vocab.mpr (Or.inl ht0), ?_⟩
    have h1 : 0 < tf d t0 := by
      unfold tf
      exact List.count_pos_iff.mpr ht0
    have h2 : (0 : ℝ) < (tf d t0 : ℝ) := by exact_mod_cast h1
    exact pow_pos h2 2
  have hW2 : vecNorm (vocab d d) (tfidfWeight d d d) ^ 2
      = ∑ t ∈ vocab d d, tfidfWeight d d d t ^ 2 := by
    unfold vecNorm
    exact Real.sq_sqrt (Finset.sum_nonneg fun i _ => sq_nonneg _)
  have hWpos : 0 < vecNorm (vocab d d) (tfidfWeight d d d) := by
    unfold vecNorm
    exact Real.sqrt_pos.mpr hpos
  have hrow : ∀ t, tfidfRow d d d t
      = tfidfWeight d d d t / vecNorm (vocab d d) (tfidfWeight d d d) := fun t => by
    unfold tfidfRow normalizeRow
    rw [if_neg hWpos.ne']
  have hrowsq : ∑ t ∈ vocab d d, tfidfRow d d d t ^ 2 = 1 := by
    have e1 : ∑ t ∈ vocab d d, tfidfRow d d d t ^ 2
        = (∑ t ∈ vocab d d, tfidfWeight d d d t ^ 2)
          / vecNorm (vocab d d) (tfidfWeight d d d) ^ 2 := by
      calc ∑ t ∈ vocab d d, tfidfRow d d d t ^ 2
          = ∑ t ∈ vocab d d,
              tfidfWeight d d d t ^ 2 / vecNorm (vocab d d) (tfidfWeight d d d) ^ 2 :=
            Finset.sum_congr rfl fun t _ => by rw [hrow t, div_pow]
        _ = (∑ t ∈ vocab d d, tfidfWeight d d d t ^ 2)
              / vecNorm (vocab d d) (tfidfWeight d d d) ^ 2 := by
            rw [← Finset.sum_div]
    rw [e1, hW2]
    exact div_self hpos.ne'
  have hN : vecNorm (vocab d d) (tfidfRow d d d) = 1 := by
    unfold vecNorm
    unfold vecNorm at hrowsq
    rw [show ∑ t ∈ vocab d d, tfidfRow d d d t ^ 2 = 1 from hrowsq, Real.sqrt_one]
  unfold cosineSimilarity
  have e2 : ∀ t ∈ vocab d d,
      normalizeRow (vocab d d) (tfidfRow d d d) t
        * normalizeRow (vocab d d) (tfidfRow d d d) t
      = tfidfRow d d d t ^ 2 := by
    intro t ht
    unfold normalizeRow
    rw [hN]
    norm_num [sq]
  rw [Finset.sum_congr rfl e2, hrowsq]

theorem similarity_self (T : String) (h : tfidfTokens T ≠ []) :
    similarity_score T T = some 100 := by
  unfold similarity_score
  have hvoc : vocab (tfidfTokens T) (tfidfTokens T) ≠ ∅ := fun hv =>
    h (vocab_eq_empty.mp hv).1
  rw [if_neg hvoc, cos_self (tfidfTokens T) h, one_mul, pyRound2_hundred]

theorem similarity_score_comm (a b : String) :
    similarity_score a b = similarity_score b a := by
  unfold similarity_score
  rw [vocab_comm (tfidfTokens b) (tfidfTokens a),
    tfidfRow_comm (tfidfTokens a) (tfidfTokens b) (tfidfTokens b),
    tfidfRow_comm (tfidfTokens a) (tfidfTokens b) (tfidfTokens a),
    cosineSimilarity_comm]

/-! ### Lemmas about read_docx -/

theorem intercalate_go_factor (s pre acc : String) (as : List String) :
    String.intercalate.go (pre ++ acc) s as = pre ++ String.intercalate.go acc s as := by
  induction as generalizing acc with
  | nil => rfl
  | cons a as ih =>
    show String.intercalate.go (pre ++ acc ++ s ++ a) s as
      = pre ++ String.intercalate.go (acc ++ s ++ a) s as
    rw [show pre ++ acc ++ s ++ a = pre ++ (acc ++ s ++ a) by
      rw [String.append_assoc pre acc s, String.append_assoc pre (acc ++ s) a]]
    exact ih (acc ++ s ++ a)

theorem read_docx_nil : read_docx [] = "" := rfl

theorem read_docx_cons (p : String) (ps : List String) :
    read_docx (p :: ps) = p ++ (if ps = [] then "" else "\n" ++ read_docx ps) := by
  cases ps with
  | nil =>
    show p = p ++ ""
    rw [String.append_empty]
  | cons q qs =>
    rw [if_neg (List.cons_ne_nil q qs)]
    show String.intercalate.go p "\n" (q :: qs) = p ++ ("\n" ++ String.intercalate.go q "\n" qs)
    show String.intercalate.go (p ++ "\n" ++ q) "\n" qs
      = p ++ ("\n" ++ String.intercalate.go q "\n" qs)
    rw [intercalate_go_factor "\n" (p ++ "\n") q qs, String.append_assoc]

/-! ### Lemmas about combined_policies -/

theorem combined_policies_acc (files : List PolicyFile) (acc : String) :
    List.foldl (fun a f => a ++ ("\n--- " ++ f.name ++ " ---\n") ++ f.text) acc files
      = acc ++ combined_policies files := by
  induction files generalizing acc with
  | nil =>
    show acc = acc ++ ""
    rw [String.append_empty]
  | cons f fs ih =>
    show List.foldl _ (acc ++ ("\n--- " ++ f.name ++ " ---\n") ++ f.text) fs
      = acc ++ combined_policies (f :: fs)
    rw [ih]
    have h2 : combined_policies (f :: fs)
        = ("" ++ ("\n--- " ++ f.name ++ " ---\n") ++ f.text) ++ combined_policies fs := by
      show List.foldl _ ("" ++ ("\n--- " ++ f.name ++ " ---\n") ++ f.text) fs = _
      rw [ih]
    rw [h2]
    simp [String.append_assoc]

theorem combined_policies_nil : combined_policies [] = "" := rfl

theorem combined_policies_cons (f : PolicyFile) (fs : List PolicyFile) :
    combined_policies (f :: fs)
      = ("\n--- " ++ f.name ++ " ---\n" ++ f.text) ++ combined_policies fs := by
  show List.foldl _ ("" ++ ("\n--- " ++ f.name ++ " ---\n") ++ f.text) fs
    = ("\n--- " ++ f.name ++ " ---\n" ++ f.text) ++ combined_policies fs
  rw [combined_policies_acc]
  simp [String.append_assoc]

theorem combined_policies_ne_empty (f : PolicyFile) (fs : List PolicyFile) :
    combined_policies (f :: fs) ≠ "" := by
  rw [combined_policies_cons]
  intro h
  have hlen := congrArg String.length h
  simp only [String.length_append] at hlen
  have h1 : ("\n--- " : String).length = 5 := rfl
  have h2 : ("" : String).length = 0 := rfl
  omega

/-! ### Lemmas about the question-list comprehensions -/

theorem filterMap_strip_filter (l : List String) (p : List Char → Bool) :
    (l.filterMap fun q =>
        if p (stripChars q.data) then some (String.mk (stripChars q.data)) else none)
      = ((l.map fun q => String.mk (stripChars q.data)).filter fun t => p t.data) := by
  induction l with
  | nil => rfl
  | cons q qs ih =>
    by_cases hp : p (stripChars q.data)
    · simp [List.filterMap_cons, List.filter_cons, hp, ih]
    · simp [List.filterMap_cons, List.filter_cons, hp, ih]

/-! ### Lemmas about the CV batch sort -/

theorem scoreDescends_trans (a b c : CvResult) (hab : scoreDescends a b = true)
    (hbc : scoreDescends b c = true) : scoreDescends a c = true := by
  simp only [scoreDescends, decide_eq_true_eq] at *
  exact le_trans hbc hab

theorem scoreDescends_total (a b : CvResult) :
    (scoreDescends a b || scoreDescends b a) = true := by
  simp only [scoreDescends, Bool.or_eq_true, decide_eq_true_eq]
  exact le_total _ _

theorem evaluate_cvs_ok {ask : String → String} {jd : String} {cvs : List CvFile}
    {res : List CvResult} (h : evaluate_cvs ask jd cvs = .ok res) :
    ∃ raw, evalCvLoop ask jd cvs = .ok raw ∧ res = raw.mergeSort scoreDescends := by
  unfold evaluate_cvs at h
  by_cases hc : cvs = [] ∨ pyStrip jd = ""
  · rw [if_pos hc] at h
    cases h
  · rw [if_neg hc] at h
    cases hloop : evalCvLoop ask jd cvs with
    | error e => rw [hloop] at h; cases h
    | ok raw =>
      rw [hloop] at h
      refine ⟨raw, rfl, ?_⟩
      cases h
      rfl

/-! ## Claims -/

/-- Claim C1, counterexample. The claim states that whenever either input is
empty or contains only stop words the scorer returns 0.0 instead of raising;
but on the pair of two empty strings the fitted vocabulary is empty and
fit_transform raises a ValueError (modelled none), so no 0.0 is returned. -/
theorem C1_counterexample :
    similarity_score "" "" = none ∧ similarity_score "" "" ≠ some 0 := by
  have hv : vocab (tfidfTokens "") (tfidfTokens "") = ∅ :=
    vocab_eq_empty.mpr ⟨rfl, rfl⟩
  have h : similarity_score "" "" = none := by
    unfold similarity_score
    rw [if_pos hv]
  exact ⟨h, by rw [h]; exact fun hc => Option.noConfusion hc⟩

/-- Claim C1 (amended): when either input yields no countable term (it is
empty, all stop words, or has only single-character tokens), the scorer
returns 0.0 provided the other input yields at least one term; when both
inputs yield no term the vectorizer raises an empty-vocabulary error,
modelled as none. -/
theorem C1_degenerate_inputs (a b : String)
    (h : tfidfTokens a = [] ∨ tfidfTokens b = []) :
    similarity_score a b =
      if tfidfTokens a = [] ∧ tfidfTokens b = [] then none else some 0 :=
  similarity_score_degenerate a b h

/-- Witness for C1 at the concrete pair of an empty string against a
two-word text: the degenerate side forces score 0.0. -/
theorem C1_witness :
    (tfidfTokens "" = [] ∨ tfidfTokens "hello world" = []) ∧
    similarity_score "" "hello world" =
      (if tfidfTokens "" = [] ∧ tfidfTokens "hello world" = [] then none else some 0) ∧
    similarity_score "" "hello world" = some 0 := by
  refine ⟨Or.inl rfl, C1_degenerate_inputs "" "hello world" (Or.inl rfl), ?_⟩
  rw [C1_degenerate_inputs "" "hello world" (Or.inl rfl)]
  exact if_neg (by decide)

/-- Claim C2, counterexample. The claim asserts score 100.0 for every
non-empty text against itself; but the text consisting of the single letter
a is non-empty, yields no token of length two, and the vectorizer raises an
empty-vocabulary error (modelled none) rather than returning 100.0. -/
theorem C2_counterexample :
    ("a" : String) ≠ "" ∧ similarity_score "a" "a" = none ∧
    similarity_score "a" "a" ≠ some 100 := by
  have h1 : tfidfTokens "a" = [] := rfl
  have hv : vocab (tfidfTokens "a") (tfidfTokens "a") = ∅ := vocab_eq_empty.mpr ⟨h1, h1⟩
  have h : similarity_score "a" "a" = none := by
    unfold similarity_score
    rw [if_pos hv]
  exact ⟨by decide, h, by rw [h]; exact fun hc => Option.noConfusion hc⟩

/-- Claim C2 (amended): for every text that yields at least one countable
term, the similarity of the text with itself is exactly 100.0 after the
two-decimal rounding. -/
theorem C2_self_similarity (T : String) (h : tfidfTokens T ≠ []) :
    similarity_score T T = some 100 :=
  similarity_self T h

/-- Witness for C2 at the concrete text hello world. -/
theorem C2_witness :
    tfidfTokens "hello world" ≠ [] ∧
    similarity_score "hello world" "hello world" = some 100 :=
  ⟨by decide, C2_self_similarity "hello world" (by decide)⟩

/-- Claim C3: the similarity scorer is symmetric in its two arguments,
including agreement of the raising behaviour, so in particular it is
symmetric on every pair on which it is defined. -/
theorem C3_symmetric (a b : String) : similarity_score a b = similarity_score b a :=
  similarity_score_comm a b

/-- Claim C4: every successful batch CV evaluation returns the collected
results sorted non-increasingly by similarity score, and any selection of
results with pairwise equal scores keeps the relative order it had in the
upload-order result list (stability of the Python sort). -/
theorem C4_sorted_stable (ask : String → String) (jd : String) (cvs : List CvFile)
    (res : List CvResult) (h : evaluate_cvs ask jd cvs = .ok res) :
    res.Pairwise (fun r s => s.score ≤ r.score) ∧
    ∀ (raw : List CvResult), evalCvLoop ask jd cvs = .ok raw →
      res.Perm raw ∧
      ∀ (sub : List CvResult), sub.Sublist raw →
        (∀ r ∈ sub, ∀ s ∈ sub, r.score = s.score) → sub.Sublist res := by
  obtain ⟨raw0, hloop, hres⟩ := evaluate_cvs_ok h
  subst hres
  constructor
  · have hs := List.sorted_mergeSort scoreDescends_trans scoreDescends_total raw0
    exact hs.imp fun hab => by simpa [scoreDescends, decide_eq_true_eq] using hab
  · intro raw hraw
    rw [hloop] at hraw
    injection hraw with hraw
    subst hraw
    refine ⟨List.mergeSort_perm raw0 scoreDescends, ?_⟩
    intro sub hsub heq
    refine List.sublist_mergeSort scoreDescends_trans scoreDescends_total ?_ hsub
    refine List.pairwise_of_forall_mem_list fun a ha b hb => ?_
    simp only [scoreDescends, decide_eq_true_eq]
    exact le_of_eq (heq b hb a ha)

/-- Witness for C4: a concrete successful one-CV evaluation, on which the
theorem yields sortedness of the output. -/
theorem C4_witness :
    evaluate_cvs (fun _ => "E") "hello world"
        [{ name := "cv.txt", text := "hello world" }]
      = .ok [{ name := "cv.txt", score := 100, evaluation := "E" }] ∧
    ([{ name := "cv.txt", score := (100 : ℝ), evaluation := "E" }] : List CvResult).Pairwise
      (fun r s => s.score ≤ r.score) := by
  have hsim : similarity_score "hello world" "hello world" = some 100 :=
    similarity_self "hello world" (by decide)
  have hone : evalCv (fun _ => "E") "hello world" { name := "cv.txt", text := "hello world" }
      = .ok { name := "cv.txt", score := (100 : ℝ), evaluation := "E" } := by
    unfold evalCv
    rw [if_neg (by decide : ¬(pyStrip "hello world" = ""))]
    rw [hsim]
  have hloop : evalCvLoop (fun _ => "E") "hello world"
      [{ name := "cv.txt", text := "hello world" }]
      = .ok [{ name := "cv.txt", score := (100 : ℝ), evaluation := "E" }] := by
    unfold evalCvLoop
    rw [hone]
    rfl
  have heval : evaluate_cvs (fun _ => "E") "hello world"
      [{ name := "cv.txt", text := "hello world" }]
      = .ok [{ name := "cv.txt", score := (100 : ℝ), evaluation := "E" }] := by
    unfold evaluate_cvs
    rw [if_neg (by decide :
      ¬([({ name := "cv.txt", text := "hello world" } : CvFile)] = []
        ∨ pyStrip "hello world" = ""))]
    rw [hloop]
    show Except.ok (List.mergeSort
      [{ name := "cv.txt", score := (100 : ℝ), evaluation := "E" }] scoreDescends) = _
    rw [List.mergeSort_singleton]
  exact ⟨heval, (C4_sorted_stable _ _ _ _ heval).1⟩

/-- Claim C5: an evaluate-answers request with different question and answer
counts is rejected with the HTTP 400 validation error and no prompt is sent
to the gateway. -/
theorem C5_mismatch_rejected (ask : String → String) (questions answers : List String)
    (h : questions.length ≠ answers.length) :
    evaluate_answers ask questions answers
      = (.error (400, "Questions and answers mismatch"), []) := by
  unfold evaluate_answers
  rw [if_pos h]

/-- Witness for C5: two questions with one answer are rejected and no
gateway call is made. -/
theorem C5_witness :
    (["q1", "q2"] : List String).length ≠ (["a1"] : List String).length ∧
    evaluate_answers (fun _ => "") ["q1", "q2"] ["a1"]
      = (.error (400, "Questions and answers mismatch"), []) :=
  ⟨by decide, C5_mismatch_rejected (fun _ => "") ["q1", "q2"] ["a1"] (by decide)⟩

/-- Claim C6, counterexample. The claim says every question-generation flow
keeps only lines starting with a digit or Q; but the src/New4.py flow keeps
every non-empty stripped line: on the response hello, a line starting with
neither a digit nor Q is kept as a question. -/
theorem C6_counterexample :
    questions_list_new4 "hello" = ["hello"] ∧
    enumLike (stripChars "hello".data) = false :=
  ⟨by decide, by decide⟩

/-- Claim C6 (amended): the src/app.py flow splits the gateway response into
lines, strips each, and keeps exactly the non-empty lines whose first
character is a digit or Q; the src/New4.py flow keeps every non-empty
stripped line without the enumeration filter; and the answers array the
src/New4.py flow initializes consists of empty strings with length equal to
its question list. -/
theorem C6_line_filtering (text : String) :
    questions_list_app text
      = ((splitLines text).map fun q => String.mk (stripChars q.data)).filter
          (fun t => !t.data.isEmpty && enumLike t.data) ∧
    questions_list_new4 text
      = ((splitLines text).map fun q => String.mk (stripChars q.data)).filter
          (fun t => !t.data.isEmpty) ∧
    (tech_answers_init (questions_list_new4 text)).length
      = (questions_list_new4 text).length ∧
    ∀ a ∈ tech_answers_init (questions_list_new4 text), a = "" := by
  refine ⟨?_, ?_, List.length_replicate _ _, fun a ha => List.eq_of_mem_replicate ha⟩
  · exact filterMap_strip_filter (splitLines text) (fun t => !t.isEmpty && enumLike t)
  · exact filterMap_strip_filter (splitLines text) (fun t => !t.isEmpty)

/-- Claim C7, counterexample. The claim says the reported total score equals
question count times 20 in every grading run; but the src/New4.py loop adds
the literal zero per pair, so with one question the reported numeric total
is 0, not 20. -/
theorem C7_counterexample :
    new4_total_score ["q"] ["a"] = 0 ∧
    (["q"] : List String).length * 20 = 20 ∧ (0 : Nat) ≠ 20 :=
  ⟨rfl, rfl, by decide⟩

/-- Helper: the src/New4.py accumulation adds zero at every step. -/
theorem foldl_add_zero (l : List (String × String)) (n : Nat) :
    l.foldl (fun acc _ => acc + 0) n = n := by
  induction l generalizing n with
  | nil => rfl
  | cons x xs ih => exact ih n

/-- Claim C7 (amended): in the src/app.py flow the reported total score is
the string of question count times 20, independent of the gateway response
text (no per-answer score is parsed); in the src/New4.py flow the reported
numeric total is 0 out of a displayed maximum of question count times 20,
equally independent of the gateway responses. -/
theorem C7_total_score (ask : String → String) (questions answers : List String)
    (h : questions.length = answers.length) :
    (evaluate_answers ask questions answers).1
      = .ok { feedback := feedbackLoop ask (questions.zip answers) 1,
              total_score := toString (questions.length * 20) } ∧
    new4_total_score questions answers = 0 ∧
    new4_score_line questions (new4_total_score questions answers)
      = "Overall Score (approximate): 0 / " ++ toString (questions.length * 20) := by
  refine ⟨?_, foldl_add_zero _ 0, ?_⟩
  · unfold evaluate_answers
    rw [if_neg (not_not_intro h)]
  · unfold new4_score_line new4_total_score
    rw [foldl_add_zero]
    rw [show ("Overall Score (approximate): " ++ toString (0 : Nat) ++ " / " : String)
      = "Overall Score (approximate): 0 / " by decide]

/-- Witness for C7: one question, one answer, and a gateway response that
contains the score 7; the reported totals ignore it. -/
theorem C7_witness :
    (["q"] : List String).length = (["a"] : List String).length ∧
    (evaluate_answers (fun _ => "Score: 7/20. Weak answer.") ["q"] ["a"]).1
      = .ok { feedback := feedbackLoop (fun _ => "Score: 7/20. Weak answer.")
                (List.zip ["q"] ["a"]) 1,
              total_score := toString ((["q"] : List String).length * 20) } ∧
    new4_total_score ["q"] ["a"] = 0 :=
  ⟨by decide,
   (C7_total_score (fun _ => "Score: 7/20. Weak answer.") ["q"] ["a"] (by decide)).1,
   (C7_total_score (fun _ => "Score: 7/20. Weak answer.") ["q"] ["a"] (by decide)).2.1⟩

/-- Claim C8, counterexample. The claim gives the separator line as the
filename wrapped directly in triple dashes followed by a newline; the code
emits a leading newline and spaces around the name, so the stored text for
one file named a with text x differs from the concatenation the claim
describes. -/
theorem C8_counterexample :
    (((upload_policies emptySessions none [{ name := "a", text := "x" }]).1
        "default").map Session.policies) = some "\n--- a ---\nx" ∧
    ("\n--- a ---\nx" : String) ≠ "---a---\nx" :=
  ⟨by decide, by decide⟩

/-- Claim C8 (amended): a policy upload stores, for the resolved session id,
exactly the concatenation over the uploaded documents in order of the
separator of the form newline, three dashes, space, filename, space, three
dashes, newline, followed by the extracted text, replacing any previously
stored policy text (the stored value does not depend on the prior store);
the handler reports success with the file count. -/
theorem C8_policy_replacement (sessions : Store) (session_id : Option String)
    (files : List PolicyFile) :
    (((upload_policies sessions session_id files).1 (session_id.getD "default")).map
        Session.policies) = some (combined_policies files) ∧
    combined_policies [] = "" ∧
    (∀ (f : PolicyFile) (fs : List PolicyFile), combined_policies (f :: fs)
      = ("\n--- " ++ f.name ++ " ---\n" ++ f.text) ++ combined_policies fs) ∧
    (upload_policies sessions session_id files).2 = .ok (true, files.length) := by
  refine ⟨?_, rfl, combined_policies_cons, rfl⟩
  unfold upload_policies storeSet
  simp

/-- Claim C9: DOCX extraction joins the paragraph texts in document order
with newlines, empty paragraphs contributing empty lines; in particular the
paragraphs Alice, empty, Engineer extract to the text with two consecutive
newlines between Alice and Engineer. -/
theorem C9_docx_join (p : String) (ps : List String) :
    read_docx ["Alice", "", "Engineer"] = "Alice\n\nEngineer" ∧
    read_docx [] = "" ∧
    read_docx (p :: ps) = p ++ (if ps = [] then "" else "\n" ++ read_docx ps) :=
  ⟨by decide, rfl, read_docx_cons p ps⟩

/-- Claim C10: upload-policies, generate-questions and ask-policy all
resolve a missing session_id to the identifier default, so they read and
write the same session record; consequently a policy upload without a
session_id is visible to a later ask-policy request without a session_id,
which answers from the uploaded combined text. -/
theorem C10_default_session (ask : String → String) (sessions : Store)
    (files : List PolicyFile) (question : String)
    (hf : files ≠ []) (hq : pyStrip question ≠ "") :
    upload_policies sessions none files
      = upload_policies sessions (some "default") files ∧
    (∀ q, ask_policy ask sessions none q = ask_policy ask sessions (some "default") q) ∧
    (∀ cv jd, generate_questions ask sessions none cv jd
      = generate_questions ask sessions (some "default") cv jd) ∧
    ask_policy ask (upload_policies sessions none files).1 none question
      = .ok (ask (policyPrompt (combined_policies files) question)) := by
  refine ⟨rfl, fun q => rfl, fun cv jd => rfl, ?_⟩
  obtain ⟨f, fs, rfl⟩ := List.exists_cons_of_ne_nil hf
  unfold ask_policy
  rw [if_neg hq]
  have hpol : (((upload_policies sessions none (f :: fs)).1
      ((none : Option String).getD "default")).map Session.policies).getD ""
      = combined_policies (f :: fs) := by
    unfold upload_policies storeSet
    simp
  rw [hpol, if_neg (combined_policies_ne_empty f fs)]

/-- Witness for C10: a concrete upload of one policy file with no session id
followed by an ask-policy request with no session id, answered from the
uploaded text. -/
theorem C10_witness :
    ([({ name := "policy.pdf", text := "Annual leave is 20 days." } : PolicyFile)] ≠ []) ∧
    pyStrip "How many leave days?" ≠ "" ∧
    ask_policy (fun s => s)
        (upload_policies emptySessions none
          [{ name := "policy.pdf", text := "Annual leave is 20 days." }]).1
        none "How many leave days?"
      = .ok ((fun s => s) (policyPrompt
          (combined_policies [{ name := "policy.pdf", text := "Annual leave is 20 days." }])
          "How many leave days?")) :=
  ⟨by decide, by decide,
   (C10_default_session (fun s => s) emptySessions
      [{ name := "policy.pdf", text := "Annual leave is 20 days." }]
      "How many leave days?" (by decide) (by decide)).2.2.2⟩

end HRPlatform
